import Mathlib

/-!
Shallow embedding of the thread/message synchronization core of
`src/nhost-next/src/app/components/ChatManager.tsx`.

The component keeps React state `threads`, `messages`, `activeThreadId`,
`isLoading`, `error` and talks to a GraphQL gateway through five
operations (GetThreads, GetMessages, CreateThread, CreateMessage,
UpdateThreadTimestamp).  Each gateway request either resolves to a
response object carrying optional `data` and optional `error` fields, or
rejects at the transport level (modelled as `Except.error ()`, the thrown
case caught by the surrounding try/catch).

Each handler of the component is embedded as a pure function from its
inputs (identity, content, wall-clock reading, and the gateway responses
it will receive, in order) and the pre-call state to the post-call state
together with the list of gateway calls it issued.  JavaScript string
truthiness (`!user?.id`, `!activeThreadId`, `!content.trim()`) is
modelled by `isBlank` on `Option String`.
-/

namespace ChatManager

/-- A chat message row, mirroring the `Message` interface of the source. -/
structure Message where
  id : String
  thread_id : String
  user_id : String
  is_user : Bool
  content : String
  created_at : String
deriving DecidableEq, Repr

/-- A thread row, mirroring the `Thread` interface of the source. -/
structure Thread where
  id : String
  user_id : String
  title : String
  created_at : String
  updated_at : String
deriving DecidableEq, Repr

/-- The local React state owned by the `ChatManager` component. -/
structure ChatState where
  threads : List Thread
  messages : List Message
  activeThreadId : Option String
  isLoading : Bool
  error : Option String
deriving DecidableEq, Repr

/-- A gateway call together with the variables it was issued with; used
to record which network requests an operation makes and in what order. -/
inductive GqlCall where
  | getThreads (user_id : String)
  | getMessages (thread_id : String)
  | createThread (user_id : String) (title : String)
  | createMessage (thread_id : String) (user_id : String) (is_user : Bool) (content : String)
  | updateThreadTimestamp (thread_id : String)
deriving DecidableEq, Repr

/-- A resolved GraphQL response: the optional data payload and the
optional server-reported error destructured from the awaited
`nhost.graphql.request(...)` result in the source. -/
structure GqlResponse (α : Type) where
  data : Option α
  error : Option String
deriving DecidableEq, Repr

/-- The outcome of awaiting a gateway request: either it resolves to a
`GqlResponse`, or it rejects at transport level (the thrown case). -/
abbrev GqlResult (α : Type) := Except Unit (GqlResponse α)

/-- JavaScript string truthiness on a nullable string: `null`/absent and
the empty string are falsy (`!user?.id`, `!activeThreadId`). -/
def isBlank : Option String → Bool
  | none => true
  | some s => s == ""

/-- Strip leading and trailing whitespace from a character list. -/
def trimChars (l : List Char) : List Char :=
  ((l.dropWhile Char.isWhitespace).reverse.dropWhile Char.isWhitespace).reverse

/-- Model of the JavaScript built-in `String.prototype.trim` used by the
source (`content.trim()`): remove leading and trailing whitespace. -/
def jsTrim (s : String) : String := ⟨trimChars s.data⟩

/-- A gateway step counts as failed when it rejected at transport level
or when it resolved carrying a server-reported error. -/
def gqlFailed {α : Type} : GqlResult α → Bool
  | .error _ => true
  | .ok r => r.error.isSome

/-- Embedding of the `fetchThreads` effect body (source lines 106-142):
guard on the user id, set loading, issue GetThreads, then either record
an error or install the fetched threads, defaulting the active thread to
the head of the list when none is selected; loading cleared in `finally`. -/
def fetchThreads (userId : Option String) (resp : GqlResult (List Thread))
    (s : ChatState) : ChatState × List GqlCall :=
  if isBlank userId then (s, [])
  else
    let s1 := { s with isLoading := true, error := none }
    let call := GqlCall.getThreads (userId.getD "")
    match resp with
    | .error _ =>
        ({ s1 with error := some "Failed to connect to the database.",
                   isLoading := false }, [call])
    | .ok r =>
        if r.error.isSome then
          ({ s1 with
              error := some "Failed to fetch threads. Make sure GraphQL permissions are set up correctly.",
              isLoading := false }, [call])
        else
          let fetchedThreads := r.data.getD []
          let s2 := { s1 with threads := fetchedThreads }
          let s3 :=
            if isBlank s.activeThreadId then
              match fetchedThreads with
              | [] => s2
              | t :: _ => { s2 with activeThreadId := some t.id }
            else s2
          ({ s3 with isLoading := false }, [call])

/-- Embedding of the synchronous head of the `fetchMessages` effect body
(source lines 145-150): when the active thread id is falsy the message
set is cleared and no request is issued; otherwise a GetMessages request
for the current active thread id is issued and the state is unchanged
until that request resolves. -/
def fetchMessagesStart (s : ChatState) : ChatState × Option GqlCall :=
  if isBlank s.activeThreadId then ({ s with messages := [] }, none)
  else (s, some (GqlCall.getMessages (s.activeThreadId.getD "")))

/-- Embedding of the continuation of `fetchMessages` after its await
(source lines 153-166): install the resolved payload or record an error.
Faithful to the source, the continuation does not compare the thread id
the request was issued for with the active thread id at resolution time. -/
def fetchMessagesResolve (resp : GqlResult (List Message))
    (s : ChatState) : ChatState :=
  match resp with
  | .error _ => { s with error := some "Failed to fetch messages." }
  | .ok r =>
      if r.error.isSome then { s with error := some "Failed to fetch messages." }
      else { s with messages := r.data.getD [] }

/-- Embedding of `selectThread` (source lines 212-214). -/
def selectThread (threadId : String) (s : ChatState) : ChatState :=
  { s with activeThreadId := some threadId }

/-- Embedding of `createThread` (source lines 172-210).  The title is
computed from the wall clock in the source; here it is an input.
Returns the post state, the issued calls, and the returned thread id. -/
def createThread (userId : Option String) (title : String)
    (resp : GqlResult Thread) (s : ChatState) :
    ChatState × List GqlCall × Option String :=
  if isBlank userId then (s, [], none)
  else
    let call := GqlCall.createThread (userId.getD "") title
    match resp with
    | .error _ => ({ s with error := some "Failed to create thread." }, [call], none)
    | .ok r =>
        if r.error.isSome then
          ({ s with error := some "Failed to create thread." }, [call], none)
        else
          match r.data with
          | some newThread =>
              ({ s with threads := newThread :: s.threads,
                        activeThreadId := some newThread.id,
                        messages := [] }, [call], some newThread.id)
          | none => (s, [call], none)

/-- Embedding of `sendMessage` (source lines 216-275): guard on user id,
active thread id and trimmed content; then three awaited gateway steps
(user message insert, echo insert, timestamp touch) issued one after the
other, each failure short-circuiting; finally the local reflection when
both created rows are present.  `now` is the wall-clock reading used for
the optimistic local `updated_at`.  A transport rejection at any await is
caught by the surrounding try/catch, which records the generic error. -/
def sendMessage (userId : Option String) (content : String) (now : String)
    (r1 r2 : GqlResult Message) (r3 : GqlResult Unit)
    (s : ChatState) : ChatState × List GqlCall :=
  if isBlank userId || isBlank s.activeThreadId || jsTrim content == "" then
    (s, [])
  else
    let uid := userId.getD ""
    let tid := s.activeThreadId.getD ""
    let c1 := GqlCall.createMessage tid uid true (jsTrim content)
    match r1 with
    | .error _ => ({ s with error := some "Failed to send message." }, [c1])
    | .ok resp1 =>
        if resp1.error.isSome then
          ({ s with error := some "Failed to send message." }, [c1])
        else
          let c2 := GqlCall.createMessage tid uid false (jsTrim content)
          match r2 with
          | .error _ => ({ s with error := some "Failed to send message." }, [c1, c2])
          | .ok resp2 =>
              if resp2.error.isSome then
                ({ s with error := some "Failed to create bot response." }, [c1, c2])
              else
                let c3 := GqlCall.updateThreadTimestamp tid
                match r3 with
                | .error _ =>
                    ({ s with error := some "Failed to send message." }, [c1, c2, c3])
                | .ok _ =>
                    match resp1.data, resp2.data with
                    | some userMessage, some botMessage =>
                        ({ s with
                            messages := s.messages ++ [userMessage, botMessage],
                            threads := s.threads.map fun t =>
                              if t.id = tid then { t with updated_at := now } else t },
                         [c1, c2, c3])
                    | _, _ => (s, [c1, c2, c3])

end ChatManager

namespace ChatManager

/-- A sample thread row used in concrete runs. -/
def sampleThread : Thread :=
  { id := "t1", user_id := "u1", title := "Jan 5, 3:45 PM",
    created_at := "2026-01-05T15:45:00Z", updated_at := "2026-01-05T15:45:00Z" }

/-- A sample state with one thread loaded and selected and no messages. -/
def sampleState : ChatState :=
  { threads := [sampleThread], messages := [], activeThreadId := some "t1",
    isLoading := false, error := none }

/-- The user-authored sample row returned by the first CreateMessage. -/
def sampleUserMsg : Message :=
  { id := "m1", thread_id := "t1", user_id := "u1", is_user := true,
    content := "hello", created_at := "2026-01-05T15:46:00Z" }

/-- The echoed sample row returned by the second CreateMessage. -/
def sampleBotMsg : Message :=
  { id := "m2", thread_id := "t1", user_id := "u1", is_user := false,
    content := "hello", created_at := "2026-01-05T15:46:01Z" }

/-- A message belonging to thread t1, payload of the stale fetch. -/
def staleMsgT1 : Message :=
  { id := "ma", thread_id := "t1", user_id := "u1", is_user := true,
    content := "old", created_at := "2026-01-05T10:00:00Z" }

/-- A message belonging to thread t2, payload of the newer fetch. -/
def staleMsgT2 : Message :=
  { id := "mb", thread_id := "t2", user_id := "u1", is_user := true,
    content := "new", created_at := "2026-01-05T11:00:00Z" }

/-- The interleaved run behind claim C1: the active thread is t1 and its
GetMessages request is issued; the user switches to t2; the GetMessages
request for t2 is issued and resolves first, installing t2's messages;
finally the stale t1 request resolves last. -/
def staleRun : ChatState :=
  let a0 : ChatState :=
    { threads := [], messages := [], activeThreadId := some "t1",
      isLoading := false, error := none }
  let a1 := (fetchMessagesStart a0).1
  let a2 := selectThread "t2" a1
  let a3 := (fetchMessagesStart a2).1
  let a4 := fetchMessagesResolve (.ok { data := some [staleMsgT2], error := none }) a3
  fetchMessagesResolve (.ok { data := some [staleMsgT1], error := none }) a4

end ChatManager

namespace ChatManager

/-- An initial state before any thread exists. -/
def emptyState : ChatState :=
  { threads := [], messages := [], activeThreadId := none,
    isLoading := true, error := none }

/-- A state with no active thread but a leftover message set. -/
def noActiveState : ChatState :=
  { threads := [], messages := [staleMsgT1], activeThreadId := none,
    isLoading := false, error := none }

/-- C1: the claim says a stale GetMessages response belonging to a
previously active thread is discarded when it resolves after the fetch
for the newer thread.  The embedded code has no such guard: in the run
`staleRun` (switch t1 to t2, t2 fetch resolves first, t1 fetch resolves
last) the final message set is the t1 payload even though the active
thread is t2, so the message set IS overwritten with stale data. -/
theorem fetchMessages_stale_overwrite :
    staleRun.activeThreadId = some "t2" ∧
    staleRun.messages = [staleMsgT1] ∧
    staleMsgT1.thread_id = "t1" ∧
    ¬ staleMsgT1.thread_id = "t2" ∧
    ¬ staleRun.messages = [staleMsgT2] := by decide

/-- C2: under the preconditions, sendMessage issues its gateway steps
one after the other: when step 1 (the user-message insert) fails, the
error field is set, only that one call was issued, and nothing else in
the state changes; when step 1 succeeds and step 2 (the echo insert)
fails, the error field is set, exactly the two inserts were issued in
order, and nothing else changes; when both succeed the three calls are
issued in order user insert, echo insert, timestamp touch. -/
theorem sendMessage_sequential_abort
    (userId : Option String) (content now : String)
    (r1 r2 : GqlResult Message) (r3 : GqlResult Unit) (s : ChatState)
    (hu : isBlank userId = false) (ha : isBlank s.activeThreadId = false)
    (hc : (jsTrim content == "") = false) :
    (gqlFailed r1 = true →
      ∃ msg, sendMessage userId content now r1 r2 r3 s =
        ({ s with error := some msg },
         [GqlCall.createMessage (s.activeThreadId.getD "") (userId.getD "") true (jsTrim content)])) ∧
    (gqlFailed r1 = false → gqlFailed r2 = true →
      ∃ msg, sendMessage userId content now r1 r2 r3 s =
        ({ s with error := some msg },
         [GqlCall.createMessage (s.activeThreadId.getD "") (userId.getD "") true (jsTrim content),
          GqlCall.createMessage (s.activeThreadId.getD "") (userId.getD "") false (jsTrim content)])) ∧
    (gqlFailed r1 = false → gqlFailed r2 = false →
      (sendMessage userId content now r1 r2 r3 s).2 =
        [GqlCall.createMessage (s.activeThreadId.getD "") (userId.getD "") true (jsTrim content),
         GqlCall.createMessage (s.activeThreadId.getD "") (userId.getD "") false (jsTrim content),
         GqlCall.updateThreadTimestamp (s.activeThreadId.getD "")]) := by
  have hguard : (isBlank userId || isBlank s.activeThreadId || jsTrim content == "") = false := by
    simp [hu, ha, hc]
  refine ⟨?_, ?_, ?_⟩
  · intro h1
    rcases r1 with e | resp1
    · exact ⟨"Failed to send message.", by simp [sendMessage, hguard]⟩
    · have hre : resp1.error.isSome = true := by simpa [gqlFailed] using h1
      exact ⟨"Failed to send message.", by simp [sendMessage, hguard, hre]⟩
  · intro h1 h2
    rcases r1 with e | resp1
    · simp [gqlFailed] at h1
    · have hre1 : resp1.error.isSome = false := by simpa [gqlFailed] using h1
      rcases r2 with e | resp2
      · exact ⟨"Failed to send message.", by simp [sendMessage, hguard, hre1]⟩
      · have hre2 : resp2.error.isSome = true := by simpa [gqlFailed] using h2
        exact ⟨"Failed to create bot response.", by simp [sendMessage, hguard, hre1, hre2]⟩
  · intro h1 h2
    rcases r1 with e | resp1
    · simp [gqlFailed] at h1
    · have hre1 : resp1.error.isSome = false := by simpa [gqlFailed] using h1
      rcases r2 with e | resp2
      · simp [gqlFailed] at h2
      · have hre2 : resp2.error.isSome = false := by simpa [gqlFailed] using h2
        rcases r3 with e | resp3
        · simp [sendMessage, hguard, hre1, hre2]
        · cases hd1 : resp1.data <;> cases hd2 : resp2.data <;>
            simp [sendMessage, hguard, hre1, hre2, hd1, hd2]

/-- Witness for C2: with the preconditions satisfied and both inserts
succeeding, the three calls are issued in order at a concrete input. -/
theorem sendMessage_sequential_abort_witness :
    (sendMessage (some "u1") "hello" "2026-01-05T15:46:02Z"
        (.ok { data := some sampleUserMsg, error := none })
        (.ok { data := some sampleBotMsg, error := none })
        (.ok { data := some (), error := none }) sampleState).2 =
      [GqlCall.createMessage (sampleState.activeThreadId.getD "") ((some "u1").getD "") true (jsTrim "hello"),
       GqlCall.createMessage (sampleState.activeThreadId.getD "") ((some "u1").getD "") false (jsTrim "hello"),
       GqlCall.updateThreadTimestamp (sampleState.activeThreadId.getD "")] :=
  (sendMessage_sequential_abort (some "u1") "hello" "2026-01-05T15:46:02Z"
      (.ok { data := some sampleUserMsg, error := none })
      (.ok { data := some sampleBotMsg, error := none })
      (.ok { data := some (), error := none }) sampleState
      (by decide) (by decide) (by decide)).2.2 rfl rfl

/-- C3: when the user id is absent, the active thread id is absent, or
the content is empty after trimming, sendMessage is a silent no-op: the
state is returned unchanged (so no error is set) and no gateway call is
issued. -/
theorem sendMessage_precondition_silent_noop
    (userId : Option String) (content now : String)
    (r1 r2 : GqlResult Message) (r3 : GqlResult Unit) (s : ChatState)
    (h : userId = none ∨ s.activeThreadId = none ∨ jsTrim content = "") :
    sendMessage userId content now r1 r2 r3 s = (s, []) := by
  have hguard : (isBlank userId || isBlank s.activeThreadId || jsTrim content == "") = true := by
    rcases h with h | h | h <;> simp [isBlank, h]
  simp [sendMessage, hguard]

/-- Witness for C3: whitespace-only content at a concrete state. -/
theorem sendMessage_precondition_silent_noop_witness :
    sendMessage (some "u1") "   " "2026-01-05T15:46:02Z"
        (.error ()) (.error ()) (.error ()) sampleState = (sampleState, []) :=
  sendMessage_precondition_silent_noop (some "u1") "   " "2026-01-05T15:46:02Z"
    (.error ()) (.error ()) (.error ()) sampleState (Or.inr (Or.inr (by decide)))

/-- C4: when the gateway returns the created thread row without error,
createThread prepends the new thread as the head of the local thread
list, makes it the active thread, clears the local message set, and
returns the id of the new thread. -/
theorem createThread_success_installs_head
    (userId : Option String) (title : String) (nt : Thread)
    (resp : GqlResponse Thread) (s : ChatState)
    (hu : isBlank userId = false) (he : resp.error = none) (hd : resp.data = some nt) :
    createThread userId title (.ok resp) s =
      ({ s with threads := nt :: s.threads,
                activeThreadId := some nt.id,
                messages := [] },
       [GqlCall.createThread (userId.getD "") title], some nt.id) := by
  simp [createThread, hu, he, hd]

/-- Witness for C4: a user with no threads creates the first thread. -/
theorem createThread_success_installs_head_witness :
    createThread (some "u1") "Jan 5, 3:45 PM"
        (.ok { data := some sampleThread, error := none }) emptyState =
      ({ emptyState with threads := sampleThread :: emptyState.threads,
                         activeThreadId := some sampleThread.id,
                         messages := [] },
       [GqlCall.createThread ((some "u1").getD "") "Jan 5, 3:45 PM"], some sampleThread.id) :=
  createThread_success_installs_head (some "u1") "Jan 5, 3:45 PM" sampleThread
    { data := some sampleThread, error := none } emptyState (by decide) rfl rfl

/-- C5: when the thread-list fetch fails, whether by transport rejection
or by a server-reported error, the error field ends up non-null, the
previously installed thread set is left unchanged, and the loading flag
is false when the operation completes. -/
theorem fetchThreads_failure_sets_error
    (userId : Option String) (resp : GqlResult (List Thread)) (s : ChatState)
    (hu : isBlank userId = false) (hf : gqlFailed resp = true) :
    ((fetchThreads userId resp s).1.error).isSome = true ∧
    (fetchThreads userId resp s).1.threads = s.threads ∧
    (fetchThreads userId resp s).1.isLoading = false := by
  rcases resp with e | r
  · refine ⟨?_, ?_, ?_⟩ <;> simp [fetchThreads, hu]
  · have hre : r.error.isSome = true := by simpa [gqlFailed] using hf
    refine ⟨?_, ?_, ?_⟩ <;> simp [fetchThreads, hu, hre]

/-- Witness for C5: a transport rejection on a concrete state. -/
theorem fetchThreads_failure_sets_error_witness :
    ((fetchThreads (some "u1") (.error ()) sampleState).1.error).isSome = true ∧
    (fetchThreads (some "u1") (.error ()) sampleState).1.threads = sampleState.threads ∧
    (fetchThreads (some "u1") (.error ()) sampleState).1.isLoading = false :=
  fetchThreads_failure_sets_error (some "u1") (.error ()) sampleState (by decide) (by decide)

/-- C6 counterexample: the claim as frozen says that whenever the first
two gateway steps succeed and both created rows are returned, step 4
appends the two rows and bumps the local thread timestamp.  At this
concrete input both inserts succeed with rows but the step-3 timestamp
touch rejects at transport level: the catch handler runs instead of
step 4, so nothing is appended (the message set stays empty rather than
becoming the two rows) and no local thread timestamp is set to the
current reading. -/
theorem sendMessage_success_step3_throw_cex :
    ((sendMessage (some "u1") "  hello  " "2026-01-05T15:47:00Z"
        (.ok { data := some sampleUserMsg, error := none })
        (.ok { data := some sampleBotMsg, error := none })
        (.error ()) sampleState).1.messages = []) ∧
    ¬ sampleState.messages ++ [sampleUserMsg, sampleBotMsg] = [] ∧
    ((sendMessage (some "u1") "  hello  " "2026-01-05T15:47:00Z"
        (.ok { data := some sampleUserMsg, error := none })
        (.ok { data := some sampleBotMsg, error := none })
        (.error ()) sampleState).1.threads = sampleState.threads) ∧
    ¬ sampleThread.updated_at = "2026-01-05T15:47:00Z" := by decide

/-- C6 as amended: when both inserts succeed, both created rows are
returned, and the step-3 timestamp touch resolves (its payload, even a
gateway-reported error, is ignored), the local reflection appends
exactly the two server-returned rows in order user row then echo row,
rewrites the thread list by updating only the active thread to the
current wall-clock reading, keeps the id sequence of the thread list
unchanged (no re-sorting), and leaves every non-active thread row
unchanged.  A step-3 transport rejection instead skips the reflection
(see the counterexample above). -/
theorem sendMessage_success_local_reflection
    (userId : Option String) (content now : String)
    (resp1 resp2 : GqlResponse Message) (resp3 : GqlResponse Unit)
    (um bm : Message) (s : ChatState)
    (hu : isBlank userId = false) (ha : isBlank s.activeThreadId = false)
    (hc : (jsTrim content == "") = false)
    (he1 : resp1.error = none) (he2 : resp2.error = none)
    (hd1 : resp1.data = some um) (hd2 : resp2.data = some bm) :
    ((sendMessage userId content now (.ok resp1) (.ok resp2) (.ok resp3) s).1.messages
        = s.messages ++ [um, bm]) ∧
    ((sendMessage userId content now (.ok resp1) (.ok resp2) (.ok resp3) s).1.threads
        = s.threads.map fun t =>
            if t.id = s.activeThreadId.getD "" then { t with updated_at := now } else t) ∧
    ((sendMessage userId content now (.ok resp1) (.ok resp2) (.ok resp3) s).1.threads.map Thread.id
        = s.threads.map Thread.id) ∧
    (∀ t ∈ s.threads, ¬ t.id = s.activeThreadId.getD "" →
      t ∈ (sendMessage userId content now (.ok resp1) (.ok resp2) (.ok resp3) s).1.threads) := by
  have hguard : (isBlank userId || isBlank s.activeThreadId || jsTrim content == "") = false := by
    simp [hu, ha, hc]
  have hmain : sendMessage userId content now (.ok resp1) (.ok resp2) (.ok resp3) s =
      ({ s with
          messages := s.messages ++ [um, bm],
          threads := s.threads.map fun t =>
            if t.id = s.activeThreadId.getD "" then { t with updated_at := now } else t },
       [GqlCall.createMessage (s.activeThreadId.getD "") (userId.getD "") true (jsTrim content),
        GqlCall.createMessage (s.activeThreadId.getD "") (userId.getD "") false (jsTrim content),
        GqlCall.updateThreadTimestamp (s.activeThreadId.getD "")]) := by
    simp [sendMessage, hguard, he1, he2, hd1, hd2]
  refine ⟨by rw [hmain], by rw [hmain], ?_, ?_⟩
  · rw [hmain]
    simp only [List.map_map]
    apply List.map_congr_left
    intro t _
    by_cases hid : t.id = s.activeThreadId.getD "" <;> simp [hid]
  · intro t ht hne
    rw [hmain]
    exact List.mem_map.mpr ⟨t, ht, by simp [hne]⟩

/-- Witness for C6: both rows returned at a concrete state; the local
message set becomes the two returned rows appended in order. -/
theorem sendMessage_success_local_reflection_witness :
    (sendMessage (some "u1") "  hello  " "2026-01-05T15:46:02Z"
        (.ok { data := some sampleUserMsg, error := none })
        (.ok { data := some sampleBotMsg, error := none })
        (.ok { data := some (), error := none }) sampleState).1.messages =
      sampleState.messages ++ [sampleUserMsg, sampleBotMsg] :=
  (sendMessage_success_local_reflection (some "u1") "  hello  " "2026-01-05T15:46:02Z"
      { data := some sampleUserMsg, error := none }
      { data := some sampleBotMsg, error := none }
      { data := some (), error := none }
      sampleUserMsg sampleBotMsg sampleState
      (by decide) (by decide) (by decide) rfl rfl rfl rfl).1

/-- C7 counterexample: the claim says a step-3 failure is never fatal to
the local reflection, whether gateway-reported or a transport failure.
At this concrete input the first two steps succeed with rows, step 3
rejects at transport level, and the local reflection is skipped: the
message set stays empty instead of receiving the two rows, the thread
set is untouched, and the generic send error is recorded. -/
theorem sendMessage_touch_transport_failure_cex :
    ((sendMessage (some "u1") "hello" "2026-01-05T15:46:02Z"
        (.ok { data := some sampleUserMsg, error := none })
        (.ok { data := some sampleBotMsg, error := none })
        (.error ()) sampleState).1.messages = []) ∧
    ¬ sampleState.messages ++ [sampleUserMsg, sampleBotMsg] = [] ∧
    ((sendMessage (some "u1") "hello" "2026-01-05T15:46:02Z"
        (.ok { data := some sampleUserMsg, error := none })
        (.ok { data := some sampleBotMsg, error := none })
        (.error ()) sampleState).1.error = some "Failed to send message.") ∧
    ((sendMessage (some "u1") "hello" "2026-01-05T15:46:02Z"
        (.ok { data := some sampleUserMsg, error := none })
        (.ok { data := some sampleBotMsg, error := none })
        (.error ()) sampleState).1.threads = sampleState.threads) := by decide

/-- C7 as amended: when the first two steps succeed with rows, a step-3
response that resolves, even one carrying a server-reported error, is
ignored and step 4 still appends both rows and bumps the local thread
timestamp; a step-3 transport rejection, however, is caught by the
shared handler, which records the generic send error and skips the
local reflection entirely. -/
theorem sendMessage_touch_failure_asymmetry
    (userId : Option String) (content now : String)
    (resp1 resp2 : GqlResponse Message)
    (um bm : Message) (s : ChatState)
    (hu : isBlank userId = false) (ha : isBlank s.activeThreadId = false)
    (hc : (jsTrim content == "") = false)
    (he1 : resp1.error = none) (he2 : resp2.error = none)
    (hd1 : resp1.data = some um) (hd2 : resp2.data = some bm) :
    (∀ resp3 : GqlResponse Unit,
      ((sendMessage userId content now (.ok resp1) (.ok resp2) (.ok resp3) s).1.messages
          = s.messages ++ [um, bm]) ∧
      ((sendMessage userId content now (.ok resp1) (.ok resp2) (.ok resp3) s).1.threads
          = s.threads.map fun t =>
              if t.id = s.activeThreadId.getD "" then { t with updated_at := now } else t)) ∧
    (sendMessage userId content now (.ok resp1) (.ok resp2) (.error ()) s =
      ({ s with error := some "Failed to send message." },
       [GqlCall.createMessage (s.activeThreadId.getD "") (userId.getD "") true (jsTrim content),
        GqlCall.createMessage (s.activeThreadId.getD "") (userId.getD "") false (jsTrim content),
        GqlCall.updateThreadTimestamp (s.activeThreadId.getD "")])) := by
  have hguard : (isBlank userId || isBlank s.activeThreadId || jsTrim content == "") = false := by
    simp [hu, ha, hc]
  refine ⟨fun resp3 => ⟨?_, ?_⟩, ?_⟩ <;> simp [sendMessage, hguard, he1, he2, hd1, hd2]

/-- Witness for the amended C7: the transport-rejection half at a
concrete input. -/
theorem sendMessage_touch_failure_asymmetry_witness :
    sendMessage (some "u1") "hello" "2026-01-05T15:46:02Z"
        (.ok { data := some sampleUserMsg, error := none })
        (.ok { data := some sampleBotMsg, error := none })
        (.error ()) sampleState =
      ({ sampleState with error := some "Failed to send message." },
       [GqlCall.createMessage (sampleState.activeThreadId.getD "") ((some "u1").getD "") true (jsTrim "hello"),
        GqlCall.createMessage (sampleState.activeThreadId.getD "") ((some "u1").getD "") false (jsTrim "hello"),
        GqlCall.updateThreadTimestamp (sampleState.activeThreadId.getD "")]) :=
  (sendMessage_touch_failure_asymmetry (some "u1") "hello" "2026-01-05T15:46:02Z"
      { data := some sampleUserMsg, error := none }
      { data := some sampleBotMsg, error := none }
      sampleUserMsg sampleBotMsg sampleState
      (by decide) (by decide) (by decide) rfl rfl rfl rfl).2

/-- C8: with no user id, createThread returns the state unchanged, no
gateway call, and the explicit no-thread result. -/
theorem createThread_no_user_noop
    (title : String) (resp : GqlResult Thread) (s : ChatState) :
    createThread none title resp s = (s, [], none) := by
  simp [createThread, isBlank]

/-- C9: when the active thread id is absent, the message loader clears
the local message set and issues no gateway fetch. -/
theorem fetchMessages_clear_on_no_active
    (s : ChatState) (h : s.activeThreadId = none) :
    fetchMessagesStart s = ({ s with messages := [] }, none) := by
  simp [fetchMessagesStart, isBlank, h]

/-- Witness for C9: a state holding messages of a previously viewed
thread with no active thread. -/
theorem fetchMessages_clear_on_no_active_witness :
    fetchMessagesStart noActiveState = ({ noActiveState with messages := [] }, none) :=
  fetchMessages_clear_on_no_active noActiveState rfl

/-- C10 counterexample: the claim as frozen says that whenever both
CreateMessage calls succeed without reported error but a created row is
missing, no error is set.  At this concrete input both inserts resolve
without reported error, the first row is missing, and the step-3
timestamp touch rejects at transport level: the catch handler records
the generic send error even though the missing-row condition of the
claim holds, so the no-error conjunct of the frozen claim fails. -/
theorem sendMessage_missing_row_throw_sets_error_cex :
    ((sendMessage (some "u1") "hola" "2026-01-05T16:00:00Z"
        (.ok { data := none, error := none })
        (.ok { data := some sampleBotMsg, error := none })
        (.error ()) sampleState).1.error = some "Failed to send message.") ∧
    sampleState.error = none := by decide

/-- C10 as amended: when both inserts resolve without reported error but
either row is missing from the response, the local reflection is
all-or-nothing: no rows are appended and no local timestamp is touched.
When the step-3 touch also resolves, the state is returned exactly as
it was, so no error is set; when the step-3 touch rejects at transport
level, the error field is set to the generic send error while the local
collections still remain unchanged.  All three calls are issued either
way. -/
theorem sendMessage_missing_row_no_local_change
    (userId : Option String) (content now : String)
    (resp1 resp2 : GqlResponse Message) (s : ChatState)
    (hu : isBlank userId = false) (ha : isBlank s.activeThreadId = false)
    (hc : (jsTrim content == "") = false)
    (he1 : resp1.error = none) (he2 : resp2.error = none)
    (hmiss : resp1.data = none ∨ resp2.data = none) :
    (∀ resp3 : GqlResponse Unit,
      sendMessage userId content now (.ok resp1) (.ok resp2) (.ok resp3) s =
        (s,
         [GqlCall.createMessage (s.activeThreadId.getD "") (userId.getD "") true (jsTrim content),
          GqlCall.createMessage (s.activeThreadId.getD "") (userId.getD "") false (jsTrim content),
          GqlCall.updateThreadTimestamp (s.activeThreadId.getD "")])) ∧
    (sendMessage userId content now (.ok resp1) (.ok resp2) (.error ()) s =
      ({ s with error := some "Failed to send message." },
       [GqlCall.createMessage (s.activeThreadId.getD "") (userId.getD "") true (jsTrim content),
        GqlCall.createMessage (s.activeThreadId.getD "") (userId.getD "") false (jsTrim content),
        GqlCall.updateThreadTimestamp (s.activeThreadId.getD "")])) := by
  have hguard : (isBlank userId || isBlank s.activeThreadId || jsTrim content == "") = false := by
    simp [hu, ha, hc]
  constructor
  · intro resp3
    rcases hmiss with hm | hm
    · simp [sendMessage, hguard, he1, he2, hm]
    · cases hd1 : resp1.data <;> simp [sendMessage, hguard, he1, he2, hm, hd1]
  · simp [sendMessage, hguard, he1, he2]

/-- Witness for the amended C10: the first insert resolves without error
but with a missing row and the touch resolves; the state is unchanged. -/
theorem sendMessage_missing_row_no_local_change_witness :
    sendMessage (some "u1") "hello" "2026-01-05T15:46:02Z"
        (.ok { data := none, error := none })
        (.ok { data := some sampleBotMsg, error := none })
        (.ok { data := some (), error := none }) sampleState =
      (sampleState,
       [GqlCall.createMessage (sampleState.activeThreadId.getD "") ((some "u1").getD "") true (jsTrim "hello"),
        GqlCall.createMessage (sampleState.activeThreadId.getD "") ((some "u1").getD "") false (jsTrim "hello"),
        GqlCall.updateThreadTimestamp (sampleState.activeThreadId.getD "")]) :=
  (sendMessage_missing_row_no_local_change (some "u1") "hello" "2026-01-05T15:46:02Z"
    { data := none, error := none } { data := some sampleBotMsg, error := none }
    sampleState (by decide) (by decide) (by decide) rfl rfl (Or.inl rfl)).1
    { data := some (), error := none }

end ChatManager
